import Mathlib

/-!
Verification development for the `tcg` trading-card inventory application.

This file shallowly embeds the core routines of the repository in Lean 4 and
proves properties of the embedding:

* `tryWithFallback` from `src/services/geminiService.ts` (model-fallback
  orchestration with retryable/fatal error classification),
* the card reconciliation in `startAnalysis` (Scanner component) and the
  regrade merge in `src/components/CardDetails.tsx`,
* the derived view (`filteredCards`, `stats`) of
  `src/components/ListingsManager.tsx`,
* the post-parse handling of `generateListingCopy`,
* `fetchMarketData` cache behaviour and `api.uploadImage` fallback behaviour.

Modelling conventions: JavaScript numbers are modelled as `ℚ` (no claim in
scope depends on float rounding), timestamps (`Date.now()`, parsed ISO
strings) as `Nat` milliseconds, absent/`undefined`/`null` values as `Option`,
and platform primitives (network `fetch`, `JSON.parse`, `atob`,
`encodeURIComponent`) as explicit parameters of the embedded functions.
JavaScript's truthiness-based `||` defaulting is modelled by the `jsOrN` /
`jsOrS` helpers below (`0`, `""`, `undefined` and `null` are falsy).
`Array.prototype.sort` (stable per the ECMAScript specification) is modelled
by `List.mergeSort`, which is stable.
-/

/-- JavaScript `a || b` for number-valued operands: `undefined`, `null` and
`0` are falsy, so they fall through to the right operand. -/
def jsOrN : Option Nat → Option Nat → Option Nat
  | some n, b => if n = 0 then b else some n
  | none, b => b

/-- JavaScript `a || b` for string-valued operands with a definite fallback:
`undefined`, `null` and the empty string are falsy. -/
def jsOrS : Option String → String → String
  | some s, b => if s = "" then b else s
  | none, b => b

/-- Tests whether `pat` occurs at the head of `s` (character lists). -/
def patAt : List Char → List Char → Bool
  | _, [] => true
  | [], _ :: _ => false
  | c :: cs, p :: ps => c == p && patAt cs ps

/-- Tests whether `pat` occurs as a contiguous run anywhere in `s`. -/
def containsAux : List Char → List Char → Bool
  | [], pat => pat.isEmpty
  | s@(_ :: rest), pat => patAt s pat || containsAux rest pat

/-- JavaScript `String.prototype.includes`: substring containment. -/
def strIncludes (s pat : String) : Bool := containsAux s.data pat.data

/-!
## Fallback invoker (`tryWithFallback`, src/services/geminiService.ts:26-68)

An error thrown by the provider call is modelled by the fields the source
inspects: `error?.status`, `error?.code`, `error?.error?.code`,
`error?.message`, `error?.error?.message`.
-/

/-- The error-shape inspected by `tryWithFallback`: `status` / `code` /
`error.code` and `message` / `error.message` of the thrown value. -/
structure GenError where
  status : Option Nat
  code : Option Nat
  nestedCode : Option Nat
  message : Option String
  nestedMessage : Option String
deriving DecidableEq

/-- Source line 39: `error?.status || error?.code || error?.error?.code`. -/
def extractStatus (e : GenError) : Option Nat :=
  jsOrN e.status (jsOrN e.code e.nestedCode)

/-- Source line 40: `error?.message || error?.error?.message || ''`. -/
def extractMessage (e : GenError) : String :=
  jsOrS e.message (jsOrS e.nestedMessage "")

/-- Source lines 43-49: retryable iff extracted status is 404 or 429, or the
extracted message contains one of the four substrings. -/
def isRetryable (e : GenError) : Bool :=
  extractStatus e == some 404 ||
  extractStatus e == some 429 ||
  strIncludes (extractMessage e) "not found" ||
  strIncludes (extractMessage e) "quota" ||
  strIncludes (extractMessage e) "NOT_FOUND" ||
  strIncludes (extractMessage e) "exceeded"

/-- Source line 52: `retryableErrors.push(status || 0)`. -/
def statusOrZero (e : GenError) : Nat := (extractStatus e).getD 0

/-- A JavaScript `Set` built from a list keeps first occurrences in insertion
order; `[...new Set(l)]` is this list. -/
def dedupSeen : List Nat → List Nat → List Nat
  | _, [] => []
  | seen, x :: xs =>
    if x ∈ seen then dedupSeen seen xs else x :: dedupSeen (x :: seen) xs

/-- Insertion-order deduplication, as produced by `[...new Set(l)]`. -/
def dedupKeepFirst (l : List Nat) : List Nat := dedupSeen [] l

/-- Source line 67 inner expression:
`lastError?.message || lastError?.error?.message || 'Unknown error'`. -/
def lastErrMessage : Option GenError → String
  | some e => jsOrS e.message (jsOrS e.nestedMessage "Unknown error")
  | none => "Unknown error"

/-- Source lines 64-67: the aggregate error message thrown after all models
failed with retryable errors. -/
def aggregateMessage (retryableErrors : List Nat) (lastError : Option GenError) :
    String :=
  let errorSummary :=
    if retryableErrors.length > 0 then
      "Errors encountered: " ++
        String.intercalate ", " ((dedupKeepFirst retryableErrors).map
          (fun n => toString n))
    else "Unknown errors"
  "All models failed. " ++ errorSummary ++ ". Last error: " ++
    lastErrMessage lastError

/-- Outcome of `tryWithFallback`: a success with the model that produced it,
an immediately rethrown non-retryable error, or the terminal aggregate
error. -/
inductive FResult (T : Type) where
  | success (result : T) (model : String)
  | fatalError (e : GenError)
  | allFailed (message : String)
deriving DecidableEq

/-- The loop of `tryWithFallback` (source lines 33-67), with the `lastError`
and `retryableErrors` accumulators explicit. Besides the outcome it returns
the list of candidates whose operation was actually invoked, in invocation
order. -/
def tryWithFallbackAux {T : Type} (op : String → Except GenError T) :
    List String → Option GenError → List Nat → FResult T × List String
  | [], lastError, retryableErrors =>
    (.allFailed (aggregateMessage retryableErrors lastError), [])
  | m :: rest, _, retryableErrors =>
    match op m with
    | .ok r => (.success r m, [m])
    | .error e =>
      if isRetryable e then
        let next := tryWithFallbackAux op rest (some e)
          (retryableErrors ++ [statusOrZero e])
        (next.1, m :: next.2)
      else (.fatalError e, [m])

/-- `tryWithFallback(models, operation)` of src/services/geminiService.ts. -/
def tryWithFallback {T : Type} (op : String → Except GenError T)
    (models : List String) : FResult T × List String :=
  tryWithFallbackAux op models none []

/-- The error a failing operation yields on a given model (the all-none error
when the operation in fact succeeds there). -/
def errOf {T : Type} (op : String → Except GenError T) (m : String) : GenError :=
  match op m with
  | .error e => e
  | .ok _ => ⟨none, none, none, none, none⟩

/-!
## Card data model (src/types.ts as used by the components)

Prices and confidences are `ℚ`, timestamps are `Nat` milliseconds, date
strings stay `String` (the listings manager compares them as strings).
-/

/-- The grading sub-record of a card. -/
structure GradingInfo where
  centering : String
  centeringReasoning : String
  corners : String
  cornersReasoning : String
  edges : String
  edgesReasoning : String
  surface : String
  surfaceReasoning : String
  overallCondition : String
  overallNotes : String
deriving DecidableEq

/-- One pricing-agent opinion. -/
structure AgentOpinion where
  id : String
  name : String
  persona : String
  price : ℚ
  reasoning : String
  confidence : ℚ
deriving DecidableEq

/-- The three agent opinions carried by a card. -/
structure AgentSet where
  conservative : AgentOpinion
  market : AgentOpinion
  speculative : AgentOpinion
deriving DecidableEq

/-- The suggested-price triple. -/
structure PriceRange where
  low : ℚ
  mid : ℚ
  high : ℚ
deriving DecidableEq

/-- One historical price point. -/
structure PricePoint where
  date : String
  price : ℚ
  source : String
deriving DecidableEq

/-- One grounding source reference. -/
structure GroundingSource where
  title : String
  uri : String
deriving DecidableEq

/-- Generated listing copy: title, eBay HTML description, TCGPlayer notes. -/
structure ListingCopyFields where
  title : String
  ebay : String
  tcg : String
deriving DecidableEq

/-- The listing sub-record of a card; every field is optional. -/
structure ListingInfo where
  listingPrice : Option ℚ
  soldPrice : Option ℚ
  listedDate : Option String
  soldDate : Option String
  platforms : Option (List String)
  listingCopy : Option ListingCopyFields
  notes : Option String
deriving DecidableEq

/-- TCGPlayer market pricing attached to a card's market-data cache. -/
structure TcgPricing where
  productId : Nat
  url : String
  priceLow : Option ℚ
  priceMid : Option ℚ
  priceHigh : Option ℚ
  priceMarket : Option ℚ
  lastUpdated : Nat
deriving DecidableEq

/-- A marketplace reference (URL plus fetch timestamp). -/
structure MarketRef where
  url : String
  lastUpdated : Nat
deriving DecidableEq

/-- The market-data cache sub-record; `cacheExpiry` is the expiry instant in
milliseconds (the source stores an ISO string and compares
`new Date(s).getTime()` with `Date.now()`). -/
structure MarketData where
  cacheExpiry : Option Nat
  tcgplayer : Option TcgPricing
  ebay : Option MarketRef
  cardmarket : Option MarketRef
deriving DecidableEq

/-- The long-lived card entity. -/
structure CardMetadata where
  id : String
  game : String
  name : String
  set : String
  cardNumber : String
  rarity : String
  isHolo : Bool
  strictness : String
  grading : GradingInfo
  images : List String
  status : String
  tags : List String
  suggestedPrice : PriceRange
  agents : AgentSet
  historicalData : List PricePoint
  groundingSources : List GroundingSource
  cardIdentifier : String
  marketData : Option MarketData
  listingInfo : Option ListingInfo
deriving DecidableEq

/-- The parsed model response used by `startAnalysis` and `handleRegrade`
(`Partial<CardMetadata>`): every top-level field may be absent. -/
structure AnalysisResult where
  game : Option String
  name : Option String
  set : Option String
  cardNumber : Option String
  rarity : Option String
  isHolo : Option Bool
  grading : Option GradingInfo
  suggestedPrice : Option PriceRange
  agents : Option AgentSet
  historicalData : Option (List PricePoint)
  groundingSources : Option (List GroundingSource)
  cardIdentifier : Option String
deriving DecidableEq

/-- The grading default of `startAnalysis` (src/unnamed/part_000:84-90):
all four attributes and the overall condition near-mint, empty reasoning. -/
def defaultGrading : GradingInfo :=
  { centering := "NM", centeringReasoning := ""
    corners := "NM", cornersReasoning := ""
    edges := "NM", edgesReasoning := ""
    surface := "NM", surfaceReasoning := ""
    overallCondition := "NM", overallNotes := "" }

/-- The agent default of `startAnalysis` (src/unnamed/part_000:95-99). -/
def defaultAgents : AgentSet :=
  { conservative :=
      { id := "1", name := "Shopkeeper", persona := "Conservative"
        price := 0, reasoning := "", confidence := 0 }
    market :=
      { id := "2", name := "Collector", persona := "Market"
        price := 0, reasoning := "", confidence := 0 }
    speculative :=
      { id := "3", name := "Investor", persona := "Speculative"
        price := 0, reasoning := "", confidence := 0 } }

/-- JavaScript `a || b` for a Bool-valued optional (`result.isHolo || false`). -/
def jsOrB : Option Bool → Bool → Bool
  | some b, c => if b then b else c
  | none, c => c

/-- The `newCard` construction of `startAnalysis`
(src/unnamed/part_000:75-103): every absent, null or falsy top-level field of
the parsed response is replaced by its documented default. -/
def buildNewCard (id : String) (strictness : String)
    (capturedImages : List String) (result : AnalysisResult) : CardMetadata :=
  { id := id
    game := jsOrS result.game "Unknown TCG"
    name := jsOrS result.name "Unknown Card"
    set := jsOrS result.set "Unknown Set"
    cardNumber := jsOrS result.cardNumber "???"
    rarity := jsOrS result.rarity "Common"
    isHolo := jsOrB result.isHolo false
    strictness := strictness
    grading := result.grading.getD defaultGrading
    images := capturedImages
    status := "inventory"
    tags := []
    suggestedPrice := result.suggestedPrice.getD { low := 0, mid := 0, high := 0 }
    agents := result.agents.getD defaultAgents
    historicalData := result.historicalData.getD []
    groundingSources := result.groundingSources.getD []
    cardIdentifier := jsOrS result.cardIdentifier ""
    marketData := none
    listingInfo := none }

/-- The `updatedCard` merge of `handleRegrade`
(src/components/CardDetails.tsx:186-191): spread of the edited card with
`grading`, `suggestedPrice` and `agents` taken from the new analysis result
when present. -/
def regradeMerge (editedCard : CardMetadata) (result : AnalysisResult) :
    CardMetadata :=
  { editedCard with
    grading := result.grading.getD editedCard.grading
    suggestedPrice := result.suggestedPrice.getD editedCard.suggestedPrice
    agents := result.agents.getD editedCard.agents }

/-!
## Derived view engine (src/components/ListingsManager.tsx)

`filteredCards` (lines 38-88): status filter, search filter, then a stable
sort driven by a three-way comparator; `stats` (lines 251-259): counts and a
total value computed from the filtered list.
-/

/-- The sort fields of the listings manager. -/
inductive SortField where
  | name
  | price
  | date
  | status
deriving DecidableEq

/-- JavaScript `a || b` for rational-valued operands with a definite
fallback: `undefined`, `null` and `0` are falsy. -/
def jsOrQ : Option ℚ → ℚ → ℚ
  | some q, b => if q = 0 then b else q
  | none, b => b

/-- The price sort key (line 67) and the per-card summand of the total value
(line 256): `card.listingInfo?.listingPrice || card.suggestedPrice.mid`. -/
def jsPriceOf (c : CardMetadata) : ℚ :=
  jsOrQ (c.listingInfo.bind (fun li => li.listingPrice)) c.suggestedPrice.mid

/-- The date sort key (line 71):
`card.listingInfo?.listedDate || card.listingInfo?.soldDate || ''`. -/
def jsDateOf (c : CardMetadata) : String :=
  jsOrS (c.listingInfo.bind (fun li => li.listedDate))
    (jsOrS (c.listingInfo.bind (fun li => li.soldDate)) "")

/-- The comparator body (lines 82-84): `-1` / `1` on a strict key
inequality, with the outcomes swapped when the direction is descending, and
`0` on ties. `asc = true` means ascending. -/
def cmpVal {κ : Type} [LinearOrder κ] (asc : Bool) (x y : κ) : Int :=
  if x < y then (if asc then -1 else 1)
  else if y < x then (if asc then 1 else -1)
  else 0

/-- The full comparator of `filteredCards.sort` (lines 58-85): the key pair
is selected by the sort field, then compared by `cmpVal`. -/
def cardCmp (field : SortField) (asc : Bool) (a b : CardMetadata) : Int :=
  match field with
  | .name => cmpVal asc a.name b.name
  | .price => cmpVal asc (jsPriceOf a) (jsPriceOf b)
  | .date => cmpVal asc (jsDateOf a) (jsDateOf b)
  | .status => cmpVal asc a.status b.status

/-- The comparator as a ≤-style Boolean relation (`comparator result ≤ 0`),
which drives the stable sort model. -/
def cardLE (field : SortField) (asc : Bool) (a b : CardMetadata) : Bool :=
  cardCmp field asc a b ≤ 0

/-- The uniform sort key of a card: a string key for the name / date /
status fields, a rational key for the price field. -/
def sortKey (field : SortField) (c : CardMetadata) : String ⊕ ℚ :=
  match field with
  | .name => .inl c.name
  | .price => .inr (jsPriceOf c)
  | .date => .inl (jsDateOf c)
  | .status => .inl c.status

/-- The status-filter stage of `filteredCards` (lines 42-44). -/
def statusStep (inventory : List CardMetadata) (statusFilter : String) :
    List CardMetadata :=
  if statusFilter ≠ "all" then
    inventory.filter (fun c => c.status == statusFilter)
  else inventory

/-- The search predicate of `filteredCards` (lines 49-54) on a card, with
the query already lowercased. -/
def searchHit (query : String) (c : CardMetadata) : Bool :=
  strIncludes c.name.toLower query ||
  strIncludes c.set.toLower query ||
  strIncludes c.cardNumber.toLower query ||
  strIncludes c.game.toLower query

/-- The search-filter stage of `filteredCards` (lines 47-55): applied only
for a non-empty (truthy) query, which is lowercased once. -/
def searchStep (l : List CardMetadata) (searchQuery : String) :
    List CardMetadata :=
  if searchQuery ≠ "" then l.filter (searchHit searchQuery.toLower)
  else l

/-- The sort stage of `filteredCards` (lines 58-85). `Array.prototype.sort`
is stable (ECMAScript 2019), so it is modelled by the stable
`List.mergeSort` on the comparator-induced Boolean relation. -/
def sortStep (field : SortField) (asc : Bool) (l : List CardMetadata) :
    List CardMetadata :=
  l.mergeSort (cardLE field asc)

/-- The derived view `filteredCards` (lines 38-88): status filter, search
filter, stable sort. `asc = true` models `sortDirection === 'asc'`. -/
def filteredCards (inventory : List CardMetadata) (statusFilter : String)
    (searchQuery : String) (field : SortField) (asc : Bool) :
    List CardMetadata :=
  sortStep field asc (searchStep (statusStep inventory statusFilter) searchQuery)

/-- The aggregation record of `stats` (lines 251-259). -/
structure ListingStats where
  allCount : Nat
  inventoryCount : Nat
  listingCount : Nat
  soldCount : Nat
  totalValue : ℚ
deriving DecidableEq

/-- The `stats` aggregation body over an already-filtered list
(lines 252-256). -/
def computeStats (filtered : List CardMetadata) : ListingStats :=
  { allCount := filtered.length
    inventoryCount := (filtered.filter (fun c => c.status == "inventory")).length
    listingCount := (filtered.filter (fun c => c.status == "listing")).length
    soldCount := (filtered.filter (fun c => c.status == "sold")).length
    totalValue := (filtered.map jsPriceOf).sum }

/-- The `stats` memo (lines 251-259): the aggregation is computed over the
current `filteredCards` view. -/
def stats (inventory : List CardMetadata) (statusFilter : String)
    (searchQuery : String) (field : SortField) (asc : Bool) : ListingStats :=
  computeStats (filteredCards inventory statusFilter searchQuery field asc)

/-!
Spec-side definitions, written from the specification's words, to be compared
with the source-derived definitions above.
-/

/-- Modelled from the spec's words for comparison: "the price sort key is
the listing price if set, else the suggested mid price" — "set" read as
present, regardless of value. -/
def specPriceKeyIfSet (c : CardMetadata) : ℚ :=
  match c.listingInfo.bind (fun li => li.listingPrice) with
  | some p => p
  | none => c.suggestedPrice.mid

/-- Modelled from the spec's words for comparison: the summed total value
uses "listing price if present, else suggested mid price" — "present" read
as present, regardless of value. -/
def specTotalValueIfPresent (filtered : List CardMetadata) : ℚ :=
  (filtered.map specPriceKeyIfSet).sum

/-- The amended price key: the listing price when present and nonzero
(JavaScript-truthy), else the suggested mid price. -/
def truthyPriceKey (c : CardMetadata) : ℚ :=
  match c.listingInfo.bind (fun li => li.listingPrice) with
  | some p => if p = 0 then c.suggestedPrice.mid else p
  | none => c.suggestedPrice.mid

/-- The amended date key: the listed-date when present and non-empty, else
the sold-date when present and non-empty, else the empty string. -/
def truthyDateKey (c : CardMetadata) : String :=
  match c.listingInfo.bind (fun li => li.listedDate) with
  | some d =>
    if d = "" then
      match c.listingInfo.bind (fun li => li.soldDate) with
      | some d2 => if d2 = "" then "" else d2
      | none => ""
    else d
  | none =>
    match c.listingInfo.bind (fun li => li.soldDate) with
    | some d2 => if d2 = "" then "" else d2
    | none => ""

/-- Case-insensitive substring containment: the spec-side reading of
"contains the query as a case-insensitive substring". -/
def containsCI (hay query : String) : Bool :=
  strIncludes hay.toLower query.toLower

/-!
## Listing-copy generation (src/services/geminiService.ts:244-283)

The provider call is `tryWithFallback` over the listing model list; on
success the body does `return JSON.parse(response.text)` with no
field-presence check. `JSON.parse` is a platform primitive and is modelled
as a parameter: `none` models a `JSON.parse` throw (syntactically invalid
payload), `some r` the parsed object projected to the three declared fields
(absent fields as `none`).
-/

/-- The static listing model registry (source lines 17-23). -/
def LISTING_MODELS : List String :=
  ["gemini-2.5-flash", "gemini-3-flash-preview", "gemini-2.0-flash-lite",
   "gemini-2.5-flash-preview-09-2025", "gemini-2.5-flash-lite-preview-09-2025"]

/-- Candidate-list construction with an optional preferred model prepended
(source lines 249-251). -/
def modelsWithPreferred (preferred : Option String) (base : List String) :
    List String :=
  match preferred with
  | some p => p :: base.filter (fun m => m ≠ p)
  | none => base

/-- The `required` list of the listing-copy response schema
(source line 273). -/
def listingCopyRequired : List String := ["title", "ebay", "tcg"]

/-- The parsed listing-copy response: each of the three declared fields may
be absent in the parsed JSON object. -/
structure ListingCopyResult where
  title : Option String
  ebay : Option String
  tcg : Option String
deriving DecidableEq

/-- Outcome of `generateListingCopy`. -/
inductive ListingCopyOutcome where
  | success (r : ListingCopyResult) (model : String)
  | fatalError (e : GenError)
  | allFailed (message : String)
  | parseFailed
deriving DecidableEq

/-- `generateListingCopy` (source lines 244-283) after request assembly:
drive `tryWithFallback`, then `JSON.parse` the winning response text and
return the parsed value as-is, with no validation of field presence. -/
def generateListingCopy (models : List String)
    (callModel : String → Except GenError String)
    (jsonParse : String → Option ListingCopyResult) : ListingCopyOutcome :=
  match tryWithFallback callModel models with
  | (.success text m, _) =>
    match jsonParse text with
    | some r => .success r m
    | none => .parseFailed
  | (.fatalError e, _) => .fatalError e
  | (.allFailed msg, _) => .allFailed msg

/-!
## Market-data fetch (src/unnamed/part_001:334-377)

The TCGPlayer search/pricing calls and `encodeURIComponent` are network /
platform primitives, modelled as an environment record. A `none` result of
`searchProduct` covers missing credentials, a failed search and an empty
result list alike (all yield `null` in the source).
-/

/-- Cache duration: 24 hours in milliseconds (src/unnamed/part_001:141). -/
def CACHE_DURATION_MS : Nat := 24 * 60 * 60 * 1000

/-- The provider environment of `fetchMarketData`. -/
structure MarketEnv where
  searchProduct : String → String → String → Option Nat
  pricing : Nat → Option TcgPricing
  encode : String → String

/-- `getEbaySearchUrl` (src/unnamed/part_001:322-325). -/
def getEbaySearchUrl (env : MarketEnv) (card : CardMetadata) : String :=
  "https://www.ebay.com/sch/i.html?_nkw=" ++
    env.encode (card.name ++ " " ++ card.set ++ " " ++ card.cardNumber)

/-- `getCardmarketSearchUrl` (src/unnamed/part_001:328-331). -/
def getCardmarketSearchUrl (env : MarketEnv) (card : CardMetadata) : String :=
  "https://www.cardmarket.com/en/" ++ card.game ++
    "/Products/Search?searchString=" ++ env.encode (card.name ++ " " ++ card.set)

/-- The cache-miss branch of `fetchMarketData` (src/unnamed/part_001:347-376):
build fresh market data with a 24-hour expiry, TCGPlayer data when the
product search yields a truthy id and pricing succeeds, and the two search
links. -/
def freshMarketData (now : Nat) (env : MarketEnv) (card : CardMetadata) :
    MarketData :=
  { cacheExpiry := some (now + CACHE_DURATION_MS)
    tcgplayer :=
      match env.searchProduct card.name card.set card.game with
      | some pid => if pid = 0 then none else env.pricing pid
      | none => none
    ebay := some { url := getEbaySearchUrl env card, lastUpdated := now }
    cardmarket :=
      some { url := getCardmarketSearchUrl env card, lastUpdated := now } }

/-- `fetchMarketData` (src/unnamed/part_001:334-377). Returns the market
data together with a flag that is `true` exactly when the cached data was
not reused, i.e. a fresh provider fetch was performed. -/
def fetchMarketData (now : Nat) (env : MarketEnv) (card : CardMetadata)
    (forceRefresh : Bool) : MarketData × Bool :=
  match forceRefresh, card.marketData with
  | false, some md =>
    match md.cacheExpiry with
    | some expiry =>
      if expiry > now then (md, false) else (freshMarketData now env card, true)
    | none => (freshMarketData now env card, true)
  | _, _ => (freshMarketData now env card, true)

/-!
## Client image upload (`api.uploadImage`, src/unnamed/part_001:69-92)

`base64ToFile` either converts the data-URL to a file of some byte size or
throws internally and is caught, returning a dummy empty file (size 0). The
upload `fetch` either yields a URL, fails with a non-OK HTTP status (thrown
`'Upload failed'`, caught), or throws a network error (caught).
-/

/-- Result of the `base64ToFile` conversion (src/unnamed/part_001:20-39). -/
inductive FileConv where
  | ok (size : Nat)
  | err
deriving DecidableEq

/-- The size of the file produced by `base64ToFile`: the dummy error file is
empty. -/
def fileSize : FileConv → Nat
  | .ok n => n
  | .err => 0

/-- Response of the upload endpoint as seen by the client. -/
inductive UploadResp where
  | ok (url : String)
  | httpFail
  | netFail
deriving DecidableEq

/-- `api.uploadImage` (src/unnamed/part_001:69-92): size-0 conversions
short-circuit to the original base64 string, and any upload failure is
caught and also falls back to the original base64 string. -/
def uploadImage (conv : FileConv) (resp : UploadResp) (base64Image : String) :
    String :=
  if fileSize conv = 0 then base64Image
  else
    match resp with
    | .ok url => url
    | .httpFail => base64Image
    | .netFail => base64Image

/-!
## Helper lemmas for the fallback invoker
-/

/-- The `lastError` accumulator after consuming a list of failing
candidates. -/
def lastErrThrough {T : Type} (op : String → Except GenError T) :
    List String → Option GenError → Option GenError
  | [], lastE => lastE
  | m :: rest, _ => lastErrThrough op rest (some (errOf op m))

theorem lastErrThrough_append_singleton {T : Type}
    (op : String → Except GenError T) (m : String) :
    ∀ (pre : List String) (lastE : Option GenError),
      lastErrThrough op (pre ++ [m]) lastE = some (errOf op m) := by
  intro pre
  induction pre with
  | nil => intro lastE; rfl
  | cons a pre ih => intro lastE; simpa [lastErrThrough] using ih (some (errOf op a))

/-- Consuming a prefix of candidates that all fail with retryable errors
only advances the accumulators and records the prefix as attempted. -/
theorem tryWithFallbackAux_skip {T : Type} (op : String → Except GenError T) :
    ∀ (pre rest : List String) (lastE : Option GenError) (acc : List Nat),
      (∀ m ∈ pre, ∃ e, op m = .error e ∧ isRetryable e = true) →
      tryWithFallbackAux op (pre ++ rest) lastE acc =
        ((tryWithFallbackAux op rest (lastErrThrough op pre lastE)
            (acc ++ pre.map (fun m => statusOrZero (errOf op m)))).1,
         pre ++ (tryWithFallbackAux op rest (lastErrThrough op pre lastE)
            (acc ++ pre.map (fun m => statusOrZero (errOf op m)))).2) := by
  intro pre
  induction pre with
  | nil => intro rest lastE acc _; simp [lastErrThrough]
  | cons a pre ih =>
    intro rest lastE acc h
    obtain ⟨e, he, hre⟩ := h a (List.mem_cons_self a pre)
    have herr : errOf op a = e := by simp [errOf, he]
    have := ih rest (some (errOf op a))
      (acc ++ [statusOrZero (errOf op a)])
      (fun m hm => h m (List.mem_cons_of_mem a hm))
    rw [herr] at this
    have hacc : acc ++ List.map (fun m => statusOrZero (errOf op m)) (a :: pre)
        = acc ++ [statusOrZero e] ++ List.map (fun m => statusOrZero (errOf op m)) pre := by
      simp [herr, List.append_assoc]
    simp only [List.cons_append, tryWithFallbackAux, he, hre, if_true,
      lastErrThrough, herr, hacc]
    exact congrArg (fun p => (p.1, a :: p.2)) this

/-- C1: for every ordered candidate list, the invoker tries candidates in
list order; on the first candidate whose operation succeeds it returns that
result paired with that candidate's identifier, and the attempted list is
exactly the prefix up to that candidate, so later candidates are never
invoked. -/
theorem C1_fallback_first_success {T : Type} (op : String → Except GenError T)
    (pre post : List String) (m : String) (r : T)
    (hpre : ∀ m' ∈ pre, ∃ e, op m' = .error e ∧ isRetryable e = true)
    (hm : op m = .ok r) :
    tryWithFallback op (pre ++ m :: post) = (.success r m, pre ++ [m]) := by
  unfold tryWithFallback
  rw [tryWithFallbackAux_skip op pre (m :: post) none [] hpre]
  simp [tryWithFallbackAux, hm]

/-- Concrete operation for the fallback witnesses: two retryable failures,
then a success; a fourth candidate would also succeed but is never
reached. -/
def opC1 : String → Except GenError Nat := fun m =>
  if m = "gemini-a" then
    .error ⟨some 404, none, none, some "model not found", none⟩
  else if m = "gemini-b" then
    .error ⟨none, some 429, none, some "quota exceeded", none⟩
  else if m = "gemini-c" then .ok 42
  else .ok 0

/-- Witness for C1 at a concrete 4-candidate list. -/
theorem C1_fallback_first_success_witness :
    tryWithFallback opC1 (["gemini-a", "gemini-b"] ++ "gemini-c" :: ["gemini-d"]) =
      (.success 42 "gemini-c", ["gemini-a", "gemini-b"] ++ ["gemini-c"]) := by
  refine C1_fallback_first_success opC1 ["gemini-a", "gemini-b"] ["gemini-d"]
    "gemini-c" 42 ?_ rfl
  intro m' hm'
  simp only [List.mem_cons, List.not_mem_nil, or_false] at hm'
  rcases hm' with h | h
  · subst h
    exact ⟨⟨some 404, none, none, some "model not found", none⟩, rfl, by decide⟩
  · subst h
    exact ⟨⟨none, some 429, none, some "quota exceeded", none⟩, rfl, by decide⟩

/-- C2: when the invoker reaches a candidate whose operation fails with a
non-retryable classification — retryable being exactly: extracted status 404
or 429, or extracted message containing one of the four substrings — it
stops with that error rethrown; the attempted list ends at that candidate,
so no later candidate is ever invoked. -/
theorem C2_fatal_short_circuit {T : Type} (op : String → Except GenError T)
    (pre post : List String) (m : String) (e : GenError)
    (hpre : ∀ m' ∈ pre, ∃ e', op m' = .error e' ∧ isRetryable e' = true)
    (hm : op m = .error e)
    (hfatal : ¬(extractStatus e = some 404 ∨ extractStatus e = some 429 ∨
        strIncludes (extractMessage e) "not found" = true ∨
        strIncludes (extractMessage e) "quota" = true ∨
        strIncludes (extractMessage e) "NOT_FOUND" = true ∨
        strIncludes (extractMessage e) "exceeded" = true)) :
    tryWithFallback op (pre ++ m :: post) = (.fatalError e, pre ++ [m]) := by
  have hret : isRetryable e = false := by
    cases hb : isRetryable e with
    | false => rfl
    | true =>
      exfalso
      apply hfatal
      simpa [isRetryable, or_assoc] using hb
  unfold tryWithFallback
  rw [tryWithFallbackAux_skip op pre (m :: post) none [] hpre]
  simp [tryWithFallbackAux, hm, hret]

/-- Concrete operation for the fatal short-circuit witness: one retryable
failure, then a 401-style fatal failure; a third candidate would succeed but
is never reached. -/
def opC2 : String → Except GenError Nat := fun m =>
  if m = "gemini-a" then
    .error ⟨some 429, none, none, some "quota exceeded", none⟩
  else if m = "gemini-b" then
    .error ⟨some 401, none, none, some "invalid api key", none⟩
  else .ok 7

/-- Witness for C2 at a concrete 3-candidate list. -/
theorem C2_fatal_short_circuit_witness :
    tryWithFallback opC2 (["gemini-a"] ++ "gemini-b" :: ["gemini-c"]) =
      (.fatalError ⟨some 401, none, none, some "invalid api key", none⟩,
        ["gemini-a"] ++ ["gemini-b"]) := by
  refine C2_fatal_short_circuit opC2 ["gemini-a"] ["gemini-c"] "gemini-b"
    ⟨some 401, none, none, some "invalid api key", none⟩ ?_ rfl (by decide)
  intro m' hm'
  simp only [List.mem_cons, List.not_mem_nil, or_false] at hm'
  subst hm'
  exact ⟨⟨some 429, none, none, some "quota exceeded", none⟩, rfl, by decide⟩

/-- C3: when every candidate of a non-empty list fails with a retryable
classification, the invoker ends with the single aggregate error; its
message is the aggregate construction over the status codes observed across
all attempts (with insertion-order deduplication) and contains both the
joined distinct status codes and the extracted message of the last
underlying error as contiguous substrings. -/
theorem C3_all_retryable_aggregate {T : Type} (op : String → Except GenError T)
    (pre : List String) (mlast : String)
    (h : ∀ m ∈ pre ++ [mlast], ∃ e, op m = .error e ∧ isRetryable e = true) :
    tryWithFallback op (pre ++ [mlast]) =
      (.allFailed (aggregateMessage
          ((pre ++ [mlast]).map (fun m => statusOrZero (errOf op m)))
          (some (errOf op mlast))),
        pre ++ [mlast]) ∧
    (∃ p q : String,
        aggregateMessage ((pre ++ [mlast]).map (fun m => statusOrZero (errOf op m)))
            (some (errOf op mlast)) =
          p ++ (String.intercalate ", "
            ((dedupKeepFirst ((pre ++ [mlast]).map
              (fun m => statusOrZero (errOf op m)))).map (fun n => toString n)) ++ q)) ∧
    (∃ p : String,
        aggregateMessage ((pre ++ [mlast]).map (fun m => statusOrZero (errOf op m)))
            (some (errOf op mlast)) =
          p ++ lastErrMessage (some (errOf op mlast))) := by
  refine ⟨?_, ?_, ?_⟩
  · unfold tryWithFallback
    have hsplit : pre ++ [mlast] = (pre ++ [mlast]) ++ [] := by simp
    rw [hsplit, tryWithFallbackAux_skip op (pre ++ [mlast]) [] none [] (by simpa using h)]
    simp [tryWithFallbackAux, lastErrThrough_append_singleton]
  · have hlen : 0 < ((pre ++ [mlast]).map (fun m => statusOrZero (errOf op m))).length := by
      simp
    refine ⟨"All models failed. " ++ "Errors encountered: ",
      ". Last error: " ++ lastErrMessage (some (errOf op mlast)), ?_⟩
    simp only [aggregateMessage, if_pos hlen]
    simp [String.append_assoc]
    rw [← String.append_assoc]
    congr 1
  · have hlen : 0 < ((pre ++ [mlast]).map (fun m => statusOrZero (errOf op m))).length := by
      simp
    refine ⟨"All models failed. " ++ (("Errors encountered: " ++
      String.intercalate ", " ((dedupKeepFirst ((pre ++ [mlast]).map
        (fun m => statusOrZero (errOf op m)))).map (fun n => toString n))) ++
      ". Last error: "), ?_⟩
    simp only [aggregateMessage, if_pos hlen]
    simp [String.append_assoc]

/-- Concrete operation for the exhaustion witness: both candidates fail
retryable, with 404 observed twice and 429 once across three attempts. -/
def opC3 : String → Except GenError Nat := fun m =>
  if m = "m1" then .error ⟨some 404, none, none, some "model not found", none⟩
  else if m = "m2" then .error ⟨some 429, none, none, some "quota exceeded", none⟩
  else .error ⟨some 404, none, none, some "second not found", none⟩

/-- Witness for C3 at a concrete 3-candidate list. -/
theorem C3_all_retryable_aggregate_witness :
    tryWithFallback opC3 (["m1", "m2"] ++ ["m3"]) =
      (.allFailed (aggregateMessage
          ((["m1", "m2"] ++ ["m3"]).map (fun m => statusOrZero (errOf opC3 m)))
          (some (errOf opC3 "m3"))),
        ["m1", "m2"] ++ ["m3"]) ∧
    (∃ p q : String,
        aggregateMessage ((["m1", "m2"] ++ ["m3"]).map
            (fun m => statusOrZero (errOf opC3 m))) (some (errOf opC3 "m3")) =
          p ++ (String.intercalate ", "
            ((dedupKeepFirst ((["m1", "m2"] ++ ["m3"]).map
              (fun m => statusOrZero (errOf opC3 m)))).map (fun n => toString n)) ++ q)) ∧
    (∃ p : String,
        aggregateMessage ((["m1", "m2"] ++ ["m3"]).map
            (fun m => statusOrZero (errOf opC3 m))) (some (errOf opC3 "m3")) =
          p ++ lastErrMessage (some (errOf opC3 "m3"))) := by
  refine C3_all_retryable_aggregate opC3 ["m1", "m2"] "m3" ?_
  intro m hm
  simp only [List.cons_append, List.nil_append, List.mem_cons,
    List.not_mem_nil, or_false] at hm
  rcases hm with h | h | h
  · subst h
    exact ⟨⟨some 404, none, none, some "model not found", none⟩, rfl, by decide⟩
  · subst h
    exact ⟨⟨some 429, none, none, some "quota exceeded", none⟩, rfl, by decide⟩
  · subst h
    exact ⟨⟨some 404, none, none, some "second not found", none⟩, rfl, by decide⟩

/-- C4: the reconciliation of a parseable grading response is a total
function (it cannot throw), and each absent top-level field is replaced by
its documented default: placeholder strings for game and name, the
all-near-mint grading block, the zero price triple, the three zero-priced /
zero-confidence agent placeholders, the empty historical list and the empty
identifier. -/
theorem C4_reconcile_defaults (id strictness : String)
    (images : List String) (result : AnalysisResult) :
    (result.agents = none →
      (buildNewCard id strictness images result).agents = defaultAgents ∧
      (buildNewCard id strictness images result).agents.conservative.price = 0 ∧
      (buildNewCard id strictness images result).agents.conservative.confidence = 0 ∧
      (buildNewCard id strictness images result).agents.market.price = 0 ∧
      (buildNewCard id strictness images result).agents.market.confidence = 0 ∧
      (buildNewCard id strictness images result).agents.speculative.price = 0 ∧
      (buildNewCard id strictness images result).agents.speculative.confidence = 0) ∧
    (result.game = none →
      (buildNewCard id strictness images result).game = "Unknown TCG") ∧
    (result.name = none →
      (buildNewCard id strictness images result).name = "Unknown Card") ∧
    (result.grading = none →
      (buildNewCard id strictness images result).grading = defaultGrading) ∧
    (result.suggestedPrice = none →
      (buildNewCard id strictness images result).suggestedPrice =
        { low := 0, mid := 0, high := 0 }) ∧
    (result.historicalData = none →
      (buildNewCard id strictness images result).historicalData = []) ∧
    (result.cardIdentifier = none →
      (buildNewCard id strictness images result).cardIdentifier = "") := by
  refine ⟨fun h => ?_, fun h => ?_, fun h => ?_, fun h => ?_, fun h => ?_,
    fun h => ?_, fun h => ?_⟩ <;>
    simp [buildNewCard, h, jsOrS, defaultAgents]

/-- A fully empty parsed response, for the reconciliation witness. -/
def emptyAnalysisResult : AnalysisResult :=
  { game := none, name := none, set := none, cardNumber := none,
    rarity := none, isHolo := none, grading := none, suggestedPrice := none,
    agents := none, historicalData := none, groundingSources := none,
    cardIdentifier := none }

/-- Witness for C4 at a concrete response missing every field. -/
theorem C4_reconcile_defaults_witness :
    (buildNewCard "id1" "standard" ["img"] emptyAnalysisResult).agents
        = defaultAgents ∧
    (buildNewCard "id1" "standard" ["img"] emptyAnalysisResult).game
        = "Unknown TCG" ∧
    (buildNewCard "id1" "standard" ["img"] emptyAnalysisResult).grading
        = defaultGrading ∧
    (buildNewCard "id1" "standard" ["img"] emptyAnalysisResult).suggestedPrice
        = { low := 0, mid := 0, high := 0 } ∧
    (buildNewCard "id1" "standard" ["img"] emptyAnalysisResult).historicalData
        = [] ∧
    (buildNewCard "id1" "standard" ["img"] emptyAnalysisResult).cardIdentifier
        = "" := by
  have h := C4_reconcile_defaults "id1" "standard" ["img"] emptyAnalysisResult
  exact ⟨(h.1 rfl).1, h.2.1 rfl, h.2.2.2.1 rfl, h.2.2.2.2.1 rfl,
    h.2.2.2.2.2.1 rfl, h.2.2.2.2.2.2 rfl⟩

/-- A concrete entity for the regrade-merge counterexample: it is in listing
state, carries two images and an existing identifier. -/
def sampleCard : CardMetadata :=
  { id := "card-7", game := "Pokemon", name := "Pikachu", set := "Base",
    cardNumber := "58/102", rarity := "Common", isHolo := false,
    strictness := "standard", grading := defaultGrading,
    images := ["url1", "url2"], status := "listing", tags := [],
    suggestedPrice := { low := 1, mid := 2, high := 3 },
    agents := defaultAgents, historicalData := [], groundingSources := [],
    cardIdentifier := "OLD-001", marketData := none, listingInfo := none }

/-- A lightly-played grading block, for the regrade counterexample. -/
def sampleNewGrading : GradingInfo :=
  { centering := "LP", centeringReasoning := "r",
    corners := "LP", cornersReasoning := "r",
    edges := "LP", edgesReasoning := "r",
    surface := "LP", surfaceReasoning := "r",
    overallCondition := "LP", overallNotes := "n" }

/-- A concrete regrade result that carries a new identifier alongside new
grading, pricing and agent data. -/
def sampleRegradeResult : AnalysisResult :=
  { game := none, name := none, set := none, cardNumber := none,
    rarity := none, isHolo := none,
    grading := some sampleNewGrading,
    suggestedPrice := some ({ low := 4, mid := 5, high := 6 } : PriceRange),
    agents := some defaultAgents, historicalData := none,
    groundingSources := none, cardIdentifier := some "NEW-002" }

/-- Counterexample to C5 as stated: the regrade merge does not replace the
identifier. The result carries identifier "NEW-002", yet the merged entity
keeps "OLD-001". -/
theorem C5_identifier_not_replaced :
    sampleRegradeResult.cardIdentifier = some "NEW-002" ∧
    (regradeMerge sampleCard sampleRegradeResult).cardIdentifier = "OLD-001" ∧
    (regradeMerge sampleCard sampleRegradeResult).cardIdentifier ≠ "NEW-002" := by
  refine ⟨rfl, rfl, ?_⟩
  decide

/-- C5 as amended: the regrade merge replaces grading, pricing and agents
with the result's values when present (keeping the prior values when
absent), and leaves every other field of the entity — including the
identifier — exactly unchanged. -/
theorem C5_regrade_partial_merge (card : CardMetadata) (result : AnalysisResult) :
    (regradeMerge card result).grading = result.grading.getD card.grading ∧
    (regradeMerge card result).suggestedPrice
        = result.suggestedPrice.getD card.suggestedPrice ∧
    (regradeMerge card result).agents = result.agents.getD card.agents ∧
    (regradeMerge card result).cardIdentifier = card.cardIdentifier ∧
    (regradeMerge card result).id = card.id ∧
    (regradeMerge card result).game = card.game ∧
    (regradeMerge card result).name = card.name ∧
    (regradeMerge card result).set = card.set ∧
    (regradeMerge card result).cardNumber = card.cardNumber ∧
    (regradeMerge card result).rarity = card.rarity ∧
    (regradeMerge card result).isHolo = card.isHolo ∧
    (regradeMerge card result).strictness = card.strictness ∧
    (regradeMerge card result).images = card.images ∧
    (regradeMerge card result).status = card.status ∧
    (regradeMerge card result).tags = card.tags ∧
    (regradeMerge card result).historicalData = card.historicalData ∧
    (regradeMerge card result).groundingSources = card.groundingSources ∧
    (regradeMerge card result).marketData = card.marketData ∧
    (regradeMerge card result).listingInfo = card.listingInfo := by
  repeat constructor

/-!
## Helper lemmas for the derived view engine
-/

theorem cmpVal_true_le {κ : Type} [LinearOrder κ] (x y : κ) :
    (cmpVal true x y ≤ 0) ↔ x ≤ y := by
  unfold cmpVal
  rcases lt_trichotomy x y with h | h | h
  · simp [h, le_of_lt h]
  · subst h
    simp
  · simp only [if_neg (asymm h), if_pos h]
    simp [not_le.mpr h]

theorem cmpVal_false_le {κ : Type} [LinearOrder κ] (x y : κ) :
    (cmpVal false x y ≤ 0) ↔ y ≤ x := by
  unfold cmpVal
  rcases lt_trichotomy x y with h | h | h
  · simp only [if_pos h]
    simp [not_le.mpr h]
  · subst h
    simp
  · simp only [if_neg (asymm h), if_pos h]
    simp [le_of_lt h]

theorem cmpVal_le {κ : Type} [LinearOrder κ] (asc : Bool) (x y : κ) :
    (cmpVal asc x y ≤ 0) ↔ (if asc then x ≤ y else y ≤ x) := by
  cases asc
  · simpa using cmpVal_false_le x y
  · simpa using cmpVal_true_le x y

theorem cmpVal_eq_zero_of_eq {κ : Type} [LinearOrder κ] (asc : Bool) (x : κ) :
    cmpVal asc x x = 0 := by
  simp [cmpVal]

theorem cmpVal_neg {κ : Type} [LinearOrder κ] (x y : κ) :
    cmpVal false x y = - cmpVal true x y := by
  unfold cmpVal
  rcases lt_trichotomy x y with h | h | h
  · simp [h, asymm h]
  · subst h
    simp
  · simp [h, asymm h]

theorem cardLE_eq_true_iff (field : SortField) (asc : Bool) (a b : CardMetadata) :
    cardLE field asc a b = true ↔ cardCmp field asc a b ≤ 0 := by
  simp [cardLE]

theorem cardLE_trans (field : SortField) (asc : Bool) :
    ∀ a b c : CardMetadata, cardLE field asc a b = true →
      cardLE field asc b c = true → cardLE field asc a c = true := by
  intro a b c hab hbc
  rw [cardLE_eq_true_iff] at *
  cases field <;> cases asc <;>
    simp only [cardCmp, cmpVal_true_le, cmpVal_false_le] at * <;>
    first
    | exact le_trans hab hbc
    | exact le_trans hbc hab

theorem cardLE_total (field : SortField) (asc : Bool) :
    ∀ a b : CardMetadata, cardLE field asc a b || cardLE field asc b a := by
  intro a b
  rcases em (cardLE field asc a b = true) with h | h
  · simp [h]
  · have h' : cardLE field asc b a = true := by
      rw [cardLE_eq_true_iff] at *
      cases field <;> cases asc <;>
        simp only [cardCmp, cmpVal_true_le, cmpVal_false_le] at * <;>
        exact le_of_not_le h
    simp [h']

theorem cardCmp_eq_zero_of_sortKey_eq (field : SortField) (asc : Bool)
    (a b : CardMetadata) (h : sortKey field a = sortKey field b) :
    cardCmp field asc a b = 0 := by
  cases field <;>
    simp only [sortKey, Sum.inl.injEq, Sum.inr.injEq] at h <;>
    simp [cardCmp, h, cmpVal_eq_zero_of_eq]

/-- Stability of the sort model in filter form: the subsequence of elements
on which the order relation is symmetric-true (mutual ties) is unchanged by
`mergeSort`. -/
theorem mergeSort_filter_stable {α : Type} (le : α → α → Bool)
    (htrans : ∀ a b c, le a b = true → le b c = true → le a c = true)
    (htotal : ∀ a b, le a b || le b a)
    (p : α → Bool) (hp : ∀ a b, p a = true → p b = true → le a b = true)
    (l : List α) : (l.mergeSort le).filter p = l.filter p := by
  have hsub : List.Sublist (l.filter p) l := List.filter_sublist l
  have hpair : (l.filter p).Pairwise (fun a b => le a b = true) :=
    List.pairwise_of_forall_mem_list (fun a ha b hb =>
      hp a b (List.of_mem_filter ha) (List.of_mem_filter hb))
  have h1 : List.Sublist (l.filter p) (l.mergeSort le) :=
    List.sublist_mergeSort htrans htotal hpair hsub
  have h2 : (l.filter p).filter p = l.filter p :=
    List.filter_eq_self.mpr (fun a ha => List.of_mem_filter ha)
  have h3 : List.Sublist (l.filter p) ((l.mergeSort le).filter p) := by
    rw [← h2]
    exact h1.filter p
  have hperm : ((l.mergeSort le).filter p).Perm (l.filter p) :=
    (List.mergeSort_perm l le).filter p
  exact (h3.eq_of_length (by simpa using hperm.length_eq.symm)).symm

/-- The price key of the source and the truthy-amended spec key coincide. -/
theorem jsPriceOf_eq_truthy (c : CardMetadata) :
    jsPriceOf c = truthyPriceKey c := by
  cases h : c.listingInfo.bind (fun li => li.listingPrice) <;>
    simp [jsPriceOf, truthyPriceKey, jsOrQ, h]

/-- The date key of the source and the truthy-amended spec key coincide. -/
theorem jsDateOf_eq_truthy (c : CardMetadata) :
    jsDateOf c = truthyDateKey c := by
  cases h1 : c.listingInfo.bind (fun li => li.listedDate) <;>
    cases h2 : c.listingInfo.bind (fun li => li.soldDate) <;>
    simp only [jsDateOf, truthyDateKey, jsOrS, h1, h2]

/-- A listing sub-record whose listing price is set but zero. -/
def zeroPriceListing : ListingInfo :=
  { listingPrice := some 0, soldPrice := none, listedDate := none,
    soldDate := none, platforms := none, listingCopy := none, notes := none }

/-- A card whose listing price is set to 0 while the suggested mid price
is 10. -/
def zeroPriceCard : CardMetadata :=
  { sampleCard with
    status := "inventory"
    listingInfo := some zeroPriceListing
    suggestedPrice := { low := 1, mid := 10, high := 20 } }

/-- Counterexample to C6 as stated: for a card whose listing price is set
(to 0), the claim's price key ("the listing price if set") is 0, but the
code's sort key falls through JavaScript's `||` to the suggested mid price
10. -/
theorem C6_price_key_counterexample :
    zeroPriceCard.listingInfo.bind (fun li => li.listingPrice) = some 0 ∧
    specPriceKeyIfSet zeroPriceCard = 0 ∧
    jsPriceOf zeroPriceCard = 10 ∧
    jsPriceOf zeroPriceCard ≠ specPriceKeyIfSet zeroPriceCard := by
  refine ⟨rfl, by decide, by decide, by decide⟩

/-- C6 as amended: the price sort key is the listing price when set and
nonzero (JavaScript-truthy) else the suggested mid price, and the date key
is the listed-date when set and non-empty, else the sold-date when set and
non-empty, else the empty string; the empty string is smallest under the
string order used by the comparator; sorting never reorders entities with
equal sort keys relative to the filtered list (stability); and descending
direction negates the comparison outcome, never the tie-break. -/
theorem C6_sort_semantics :
    (∀ c, jsPriceOf c = truthyPriceKey c) ∧
    (∀ c, jsDateOf c = truthyDateKey c) ∧
    (∀ s : String, s ≠ "" → (("" : String) < s ∧ ¬ s < "")) ∧
    (∀ (inv : List CardMetadata) (sf q : String) (field : SortField)
        (asc : Bool) (k : String ⊕ ℚ),
      (filteredCards inv sf q field asc).filter
          (fun c => decide (sortKey field c = k)) =
        (searchStep (statusStep inv sf) q).filter
          (fun c => decide (sortKey field c = k))) ∧
    (∀ (field : SortField) (a b : CardMetadata),
      cardCmp field false a b = -(cardCmp field true a b)) := by
  refine ⟨jsPriceOf_eq_truthy, jsDateOf_eq_truthy, ?_, ?_, ?_⟩
  · intro s hs
    constructor
    · rw [String.lt_iff_toList_lt, String.toList_empty,
        String.toList_nonempty hs]
      exact List.nil_lt_cons _ _
    · intro hlt
      rw [String.lt_iff_toList_lt, String.toList_empty] at hlt
      exact List.Lex.not_nil_right _ _ hlt
  · intro inv sf q field asc k
    unfold filteredCards sortStep
    refine mergeSort_filter_stable (cardLE field asc) (cardLE_trans field asc)
      (cardLE_total field asc) _ ?_ _
    intro a b ha hb
    rw [decide_eq_true_eq] at ha hb
    rw [cardLE_eq_true_iff,
      cardCmp_eq_zero_of_sortKey_eq field asc a b (ha.trans hb.symm)]
  · intro field a b
    cases field <;> simp [cardCmp, cmpVal_neg]

/-- Witness for C6: the empty-string component applied at a concrete
non-empty date string, alongside a concrete direction-reversal instance. -/
theorem C6_sort_semantics_witness :
    (("" : String) < "2024-01-01" ∧ ¬ ("2024-01-01" : String) < "") ∧
    cardCmp SortField.price false sampleCard zeroPriceCard =
      -(cardCmp SortField.price true sampleCard zeroPriceCard) := by
  exact ⟨C6_sort_semantics.2.2.1 "2024-01-01" (by decide),
    C6_sort_semantics.2.2.2.2 SortField.price sampleCard zeroPriceCard⟩

/-- Counterexample to C7 as stated: with a single filtered card whose
listing price is present (set to 0) and whose suggested mid price is 10,
the claim's total value ("listing price if present") is 0, but the code's
aggregation sums 10. -/
theorem C7_total_value_counterexample :
    (stats [zeroPriceCard] "all" "" SortField.name true).totalValue = 10 ∧
    specTotalValueIfPresent
      (filteredCards [zeroPriceCard] "all" "" SortField.name true) = 0 ∧
    (10 : ℚ) ≠ 0 := by
  have hf : filteredCards [zeroPriceCard] "all" "" SortField.name true
      = [zeroPriceCard] := by
    simp [filteredCards, sortStep, searchStep, statusStep]
  refine ⟨?_, ?_, by norm_num⟩
  · unfold stats
    rw [hf]
    simp [computeStats, jsPriceOf, jsOrQ, zeroPriceCard, zeroPriceListing]
  · rw [hf]
    simp [specTotalValueIfPresent, specPriceKeyIfSet, zeroPriceCard,
      zeroPriceListing]

/-- C7 as amended: the status filter `all` passes every entity through; for
a non-empty query an entity is retained iff its name, set, card number or
game contains the query as a case-insensitive substring; and the companion
aggregation computes its per-status counts and its summed total value — the
listing price when present and nonzero (JavaScript-truthy), else the
suggested mid price — over exactly the currently filtered set. -/
theorem C7_filter_and_stats :
    (∀ inv : List CardMetadata, statusStep inv "all" = inv) ∧
    (∀ (l : List CardMetadata) (q : String) (c : CardMetadata), q ≠ "" →
      (c ∈ searchStep l q ↔ c ∈ l ∧
        (containsCI c.name q || containsCI c.set q ||
         containsCI c.cardNumber q || containsCI c.game q) = true)) ∧
    (∀ (inv : List CardMetadata) (sf q : String) (field : SortField)
        (asc : Bool),
      (stats inv sf q field asc).allCount
          = (filteredCards inv sf q field asc).length ∧
      (stats inv sf q field asc).inventoryCount
          = ((filteredCards inv sf q field asc).filter
              (fun c => c.status == "inventory")).length ∧
      (stats inv sf q field asc).listingCount
          = ((filteredCards inv sf q field asc).filter
              (fun c => c.status == "listing")).length ∧
      (stats inv sf q field asc).soldCount
          = ((filteredCards inv sf q field asc).filter
              (fun c => c.status == "sold")).length ∧
      (stats inv sf q field asc).totalValue
          = ((filteredCards inv sf q field asc).map truthyPriceKey).sum) := by
  refine ⟨?_, ?_, ?_⟩
  · intro inv
    simp [statusStep]
  · intro l q c hq
    unfold searchStep
    rw [if_pos hq]
    exact List.mem_filter
  · intro inv sf q field asc
    refine ⟨rfl, rfl, rfl, rfl, ?_⟩
    show ((filteredCards inv sf q field asc).map jsPriceOf).sum = _
    rw [funext jsPriceOf_eq_truthy]

/-- Witness for C7 at a concrete card and a concrete non-empty query. -/
theorem C7_filter_and_stats_witness :
    statusStep [sampleCard] "all" = [sampleCard] ∧
    (sampleCard ∈ searchStep [sampleCard] "pika" ↔
      sampleCard ∈ [sampleCard] ∧
      (containsCI sampleCard.name "pika" || containsCI sampleCard.set "pika" ||
       containsCI sampleCard.cardNumber "pika" ||
       containsCI sampleCard.game "pika") = true) :=
  ⟨C7_filter_and_stats.1 [sampleCard],
   C7_filter_and_stats.2.1 [sampleCard] "pika" sampleCard (by decide)⟩

/-- Counterexample to C8 as stated: a parsed listing-copy response missing
the ebay and tcg fields is returned as a success, not rejected with a
ParseError. -/
theorem C8_missing_fields_returned :
    generateListingCopy ["gemini-2.5-flash"] (fun _ => .ok "RAW")
        (fun _ => some ⟨some "t", none, none⟩) =
      .success ⟨some "t", none, none⟩ "gemini-2.5-flash" ∧
    (⟨some "t", none, none⟩ : ListingCopyResult).ebay = none ∧
    (⟨some "t", none, none⟩ : ListingCopyResult).tcg = none :=
  ⟨rfl, rfl, rfl⟩

/-- C8 as amended: the listing-copy request declares all three output
fields required in its response schema, but the client performs no
post-parse validation — whatever object `JSON.parse` yields is returned
as-is, missing fields included; only a payload that fails to parse at all
ends the operation without a result. -/
theorem C8_post_parse_passthrough (models : List String)
    (callModel : String → Except GenError String)
    (jsonParse : String → Option ListingCopyResult)
    (text m : String) (tried : List String) (r : ListingCopyResult)
    (hcall : tryWithFallback callModel models = (.success text m, tried))
    (hparse : jsonParse text = some r) :
    generateListingCopy models callModel jsonParse = .success r m ∧
    listingCopyRequired = ["title", "ebay", "tcg"] := by
  unfold generateListingCopy
  rw [hcall]
  simp [hparse, listingCopyRequired]

/-- Witness for C8 at a concrete single-model list and fully parsed
response. -/
theorem C8_post_parse_passthrough_witness :
    generateListingCopy ["m"] (fun _ => .ok "T")
        (fun _ => some ⟨some "a", some "b", some "c"⟩) =
      .success ⟨some "a", some "b", some "c"⟩ "m" ∧
    listingCopyRequired = ["title", "ebay", "tcg"] :=
  C8_post_parse_passthrough ["m"] (fun _ => .ok "T")
    (fun _ => some ⟨some "a", some "b", some "c"⟩) "T" "m" ["m"]
    ⟨some "a", some "b", some "c"⟩ rfl rfl

/-- C9: when the cached market data carries an expiry strictly in the
future, a non-forced fetch returns the cache and performs no provider
fetch; a forced fetch on the same entity bypasses the cache and performs a
fresh fetch. -/
theorem C9_cache_expiry (now : Nat) (env : MarketEnv) (card : CardMetadata)
    (md : MarketData) (expiry : Nat)
    (hmd : card.marketData = some md)
    (hexp : md.cacheExpiry = some expiry)
    (hfut : now < expiry) :
    fetchMarketData now env card false = (md, false) ∧
    fetchMarketData now env card true = (freshMarketData now env card, true) := by
  constructor
  · unfold fetchMarketData
    simp only [hmd]
    simp [hexp, hfut]
  · rfl

/-- A trivial provider environment for the cache witness. -/
def trivialEnv : MarketEnv :=
  { searchProduct := fun _ _ _ => none, pricing := fun _ => none,
    encode := fun s => s }

/-- A cached market-data record expiring at instant 2000. -/
def cachedMD : MarketData :=
  { cacheExpiry := some 2000, tcgplayer := none, ebay := none,
    cardmarket := none }

/-- A card carrying the cached market data. -/
def cachedCard : CardMetadata := { sampleCard with marketData := some cachedMD }

/-- Witness for C9 at instant 1000 against a cache expiring at 2000. -/
theorem C9_cache_expiry_witness :
    fetchMarketData 1000 trivialEnv cachedCard false = (cachedMD, false) ∧
    fetchMarketData 1000 trivialEnv cachedCard true
      = (freshMarketData 1000 trivialEnv cachedCard, true) :=
  C9_cache_expiry 1000 trivialEnv cachedCard cachedMD 2000 rfl rfl (by decide)

/-- C10: the client image upload is total (it cannot throw) and always
yields either the server URL of a successful upload or the original base64
string: a failed conversion or any failed upload falls back to the input
string itself. -/
theorem C10_upload_fallback (conv : FileConv) (resp : UploadResp)
    (b64 : String) :
    (conv = .err → uploadImage conv resp b64 = b64) ∧
    ((∀ url, resp ≠ .ok url) → uploadImage conv resp b64 = b64) ∧
    (uploadImage conv resp b64 = b64 ∨
      ∃ url, resp = .ok url ∧ uploadImage conv resp b64 = url) := by
  refine ⟨?_, ?_, ?_⟩
  · intro h
    subst h
    rfl
  · intro h
    unfold uploadImage
    split
    · rfl
    · cases resp with
      | ok url => exact absurd rfl (h url)
      | httpFail => rfl
      | netFail => rfl
  · unfold uploadImage
    split
    · exact Or.inl rfl
    · cases resp with
      | ok url => exact Or.inr ⟨url, rfl, rfl⟩
      | httpFail => exact Or.inl rfl
      | netFail => exact Or.inl rfl

/-- Witness for C10: a failed conversion with a would-be-successful server,
and a successful conversion with a network failure, both return the
original base64 string. -/
theorem C10_upload_fallback_witness :
    uploadImage .err (.ok "http://s/img.jpg") "data64" = "data64" ∧
    uploadImage (.ok 5) .netFail "data64" = "data64" :=
  ⟨(C10_upload_fallback .err (.ok "http://s/img.jpg") "data64").1 rfl,
   (C10_upload_fallback (.ok 5) .netFail "data64").2.1
     (fun _ h => UploadResp.noConfusion h)⟩
